import Mathlib

/-!
Shallow embedding of `jwt_authenticator` (src/jwt_authenticator/authenticator.py),
a request-authentication decorator: it extracts a bearer token from an HTTP
request (cookie, then Authorization header), decodes and validates the JWT,
checks the token identifier against a revocation table in a relational store,
and either invokes the wrapped handler with the decoded payload attached to the
request or returns an error HTTP response.

Python strings are modelled as Lean `String`; Python `str.split` on the two
separators the source uses (`"="`, `"; "`, `" "`) is implemented at the
character-list level by structural recursion so that all definitions are
kernel-executable.  Exceptions are modelled by `Except` with the tagged error
type `AuthError`; the `try/except` of the decorator becomes a match on the
sequential pipeline.  The two external collaborators the source calls —
PyJWT's `jwt.decode` and the pymysql-backed revocation table — are modelled
from the spec's component contracts (sections 4.1 and 4.3) as an abstract
parse environment and a store state, and are marked as such below.
-/

namespace JwtAuthenticator

deriving instance DecidableEq for Except

/-- Python `s.split(c)` for a one-character separator `c`, on character lists:
splits at every occurrence of `c`, keeping empty segments (never returns an
empty list). -/
def splitChar (c : Char) : List Char → List (List Char)
  | [] => [[]]
  | a :: as =>
    if a = c then [] :: splitChar c as
    else
      match splitChar c as with
      | [] => [[a]]
      | x :: xs => (a :: x) :: xs

/-- Python `s.split('; ')` on character lists: splits at every
(left-to-right, non-overlapping) occurrence of the two-character separator
`"; "`, keeping empty segments. -/
def splitSemiSpace : List Char → List (List Char)
  | [] => [[]]
  | [a] => [[a]]
  | a :: b :: rest =>
    if a = ';' ∧ b = ' ' then [] :: splitSemiSpace rest
    else
      match splitSemiSpace (b :: rest) with
      | [] => [[a]]
      | x :: xs => (a :: x) :: xs

/-- Python `s.split('=')` on `String`. -/
def splitOnEq (s : String) : List String :=
  (splitChar '=' s.data).map List.asString

/-- Python `s.split('; ')` on `String`. -/
def splitOnSemiSpace (s : String) : List String :=
  (splitSemiSpace s.data).map List.asString

/-- Python `s.split(' ')` on `String`. -/
def splitOnSpace (s : String) : List String :=
  (splitChar ' ' s.data).map List.asString

/-- Python `dict(pairs).get(k)`: with duplicate keys the later pair wins, so
look the key up in the reversed pair list. -/
def dictGet (l : List (String × String)) (k : String) : Option String :=
  l.reverse.lookup k

/-- The two header lookups the source performs on the Azure `HttpRequest`:
`req.headers.get('Cookie', '')` and `req.headers.get('Authorization', None)`.
`none` models an absent header. -/
structure HttpRequest where
  cookieHeader : Option String
  authHeader : Option String
deriving DecidableEq

/-- Azure `HttpResponse(body, status_code=..., mimetype=...)` as constructed
by `_handle_error`. -/
structure HttpResponse where
  body : String
  status_code : Nat
  mimetype : String
deriving DecidableEq

/-- The exception kinds that can escape the authentication pipeline and reach
`_handle_error`:
* `ExpiredSignature` — `jwt.ExpiredSignatureError`;
* `InvalidToken` — `jwt.InvalidTokenError` (malformed structure or signature,
  disallowed algorithm) other than expiry;
* `ValueErr msg` — Python `ValueError(msg)` raised by `_extract_token` and
  `_verify_token_in_db`;
* `IndexErr` — Python `IndexError` from `auth_header.split(" ")[1]` when the
  header has no space;
* `DbUnavailable` — a pymysql connectivity/timeout error (not a `ValueError`). -/
inductive AuthError
  | ExpiredSignature
  | InvalidToken
  | ValueErr (msg : String)
  | IndexErr
  | DbUnavailable
deriving DecidableEq

/-- Modelled from the spec: the content a well-formed three-part JWT carries
once parsed — the header's algorithm name, the key its signature actually
verifies under (an HMAC signature verifies exactly under the signing key),
the expiry timestamp, and the claims payload (a string-to-string mapping
as a list of pairs, later duplicates winning as in a dict). -/
structure ParsedToken where
  alg : String
  sigKey : String
  exp : Nat
  claims : List (String × String)
deriving DecidableEq

/-- Modelled from the spec (section 4.3): the state of the pymysql-backed
revocation store — whether the store is reachable, and the set of
`token_id` values that have a row in the `jwt_token` table. -/
structure Db where
  available : Bool
  rows : List String
deriving DecidableEq

/-- Modelled from the spec (section 4.1, token codec): PyJWT's
`jwt.decode(token, key, algorithms=...)`.  `parse` maps a raw token string to
its parsed content, `none` meaning the token does not have the expected
three-part structure.  Decoding fails with `InvalidToken` on malformed
structure, on an algorithm outside the allowed list, and on a signature that
does not verify against the key; it fails with `ExpiredSignature` when the
current time is past the expiry timestamp; otherwise it returns the claims
payload. -/
def jwt_decode (parse : String → Option ParsedToken) (token key : String)
    (algorithms : List String) (now : Nat) :
    Except AuthError (List (String × String)) :=
  match parse token with
  | none => .error .InvalidToken
  | some pt =>
    if ¬ algorithms.contains pt.alg then .error .InvalidToken
    else if pt.sigKey ≠ key then .error .InvalidToken
    else if pt.exp < now then .error .ExpiredSignature
    else .ok pt.claims

/-- Source `JWTAuthenticator._extract_token`: build the cookie dict by splitting the
`Cookie` header on `'; '`, keeping the fragments containing `'='` keyed by
`split('=')[0]` with value `split('=')[1]`; take the `auth_token` entry; if it
is missing or falsy (empty), fall back to `Authorization.split(" ")[1]` when
that header is present and truthy, raising `IndexError` when the header has no
space, and raise `ValueError("Token is missing")` when it is absent or empty. -/
def cookiesOf (header : String) : List (String × String) :=
  (splitOnSemiSpace header).filterMap fun ck =>
    if ck.data.contains '=' then
      some ((splitOnEq ck).getD 0 "", (splitOnEq ck).getD 1 "")
    else none

/-- The Authorization-header branch of `_extract_token`. -/
def extractFromAuthHeader (authHeader : Option String) : Except AuthError String :=
  match authHeader with
  | some ah =>
    if ah = "" then .error (.ValueErr "Token is missing")
    else
      match (splitOnSpace ah).get? 1 with
      | some t => .ok t
      | none => .error .IndexErr
  | none => .error (.ValueErr "Token is missing")

/-- Source `JWTAuthenticator._extract_token` (see `cookiesOf` for the cookie dict). -/
def extract_token (req : HttpRequest) : Except AuthError String :=
  let cookieHeader := req.cookieHeader.getD ""
  match dictGet (cookiesOf cookieHeader) "auth_token" with
  | some t => if t = "" then extractFromAuthHeader req.authHeader else .ok t
  | none => extractFromAuthHeader req.authHeader

/-- Source `JWTAuthenticator._decode_token`:
`jwt.decode(token, self.secret_key, algorithms=['HS256'])`. -/
def decode_token (parse : String → Option ParsedToken) (secret_key token : String)
    (now : Nat) : Except AuthError (List (String × String)) :=
  jwt_decode parse token secret_key ["HS256"] now

/-- Source `JWTAuthenticator._verify_token_in_db`: raise
`ValueError("Token ID is missing from payload")` when the payload's
`token_id` is absent or empty; otherwise connect to the store (a
connectivity failure is a non-`ValueError` exception, modelled
`DbUnavailable`), select the row keyed by the identifier, and raise
`ValueError("JWT token is blacklisted")` when no row exists. -/
def verify_token_in_db (db : Db) (token_id : Option String) :
    Except AuthError Unit :=
  match token_id with
  | none => .error (.ValueErr "Token ID is missing from payload")
  | some tid =>
    if tid = "" then .error (.ValueErr "Token ID is missing from payload")
    else if ¬ db.available then .error .DbUnavailable
    else if db.rows.contains tid then .ok ()
    else .error (.ValueErr "JWT token is blacklisted")

/-- Source `JWTAuthenticator._handle_error`: the `isinstance` chain mapping the
caught exception to an HTTP response — `jwt.ExpiredSignatureError`,
`jwt.InvalidTokenError` and `ValueError` map to 401 responses with the
corresponding JSON bodies, and every other exception maps to the generic
500 response. -/
def handle_error : AuthError → HttpResponse
  | .ExpiredSignature =>
    ⟨"\x7b\"success\": false, \"error\": \"Token is expired. Please log in again.\"\x7d",
      401, "application/json"⟩
  | .InvalidToken =>
    ⟨"\x7b\"success\": false, \"error\": \"Invalid token.\"\x7d",
      401, "application/json"⟩
  | .ValueErr msg =>
    ⟨"\x7b\"success\": false, \"error\": \"" ++ msg ++ "\"\x7d",
      401, "application/json"⟩
  | .IndexErr =>
    ⟨"\x7b\"success\": false, \"error\": \"Internal server error during authentication.\"\x7d",
      500, "application/json"⟩
  | .DbUnavailable =>
    ⟨"\x7b\"success\": false, \"error\": \"Internal server error during authentication.\"\x7d",
      500, "application/json"⟩

/-- The body of the `try` block in `decorated_function`: extract the token,
decode it, verify `payload.get('token_id')` in the store; the first exception
aborts the rest. -/
def authPipeline (parse : String → Option ParsedToken) (db : Db)
    (secret : String) (now : Nat) (req : HttpRequest) :
    Except AuthError (List (String × String)) :=
  match extract_token req with
  | .error e => .error e
  | .ok token =>
    match decode_token parse secret token now with
    | .error e => .error e
    | .ok payload =>
      match verify_token_in_db db (dictGet payload "token_id") with
      | .error e => .error e
      | .ok _ => .ok payload

/-- Outcome of `decorated_function`: either the wrapped handler is invoked on
the request carrying `req.jwt_payload = payload`, or an error `HttpResponse`
is returned and the handler never runs. -/
inductive AuthOutcome
  | handlerInvoked (payload : List (String × String))
  | errResponse (resp : HttpResponse)
deriving DecidableEq

/-- Source `decorated_function` produced by `jwt_required`: run the pipeline inside
`try`; on any exception return `_handle_error(e)`; otherwise attach the
payload to the request and call the wrapped handler. -/
def decorated_function (parse : String → Option ParsedToken) (db : Db)
    (secret : String) (now : Nat) (req : HttpRequest) : AuthOutcome :=
  match authPipeline parse db secret now req with
  | .error e => .errResponse (handle_error e)
  | .ok payload => .handlerInvoked payload

/-- Concrete token environment: exactly the string `"tok"` parses, as an
HS256 token signed under key `"k"`, expiring at time `100`, whose claims
carry the token identifier `"id0"`. -/
def parse0 : String → Option ParsedToken := fun s =>
  if s = "tok" then some ⟨"HS256", "k", 100, [("token_id", "id0")]⟩ else none

/-- Concrete token environment: exactly the string `"t"` parses, as a token
whose header names the algorithm `"none"`. -/
def parse1 : String → Option ParsedToken := fun s =>
  if s = "t" then some ⟨"none", "k", 10, []⟩ else none

/-! Helper lemmas about the split functions. -/

theorem splitChar_of_not_mem (c : Char) (l : List Char) (h : c ∉ l) :
    splitChar c l = [l] := by
  induction l with
  | nil => rfl
  | cons a as ih =>
    have ha : ¬ a = c := fun hh => h (hh ▸ List.mem_cons_self a as)
    have h' : c ∉ as := fun hm => h (List.mem_cons_of_mem a hm)
    rw [splitChar, if_neg ha, ih h']

theorem splitChar_append_sep (c : Char) (l₁ l₂ : List Char)
    (h₁ : c ∉ l₁) (h₂ : c ∉ l₂) :
    splitChar c (l₁ ++ c :: l₂) = [l₁, l₂] := by
  induction l₁ with
  | nil => rw [List.nil_append, splitChar, if_pos rfl,
      splitChar_of_not_mem c l₂ h₂]
  | cons a as ih =>
    have ha : ¬ a = c := fun hh => h₁ (hh ▸ List.mem_cons_self a as)
    have h₁' : c ∉ as := fun hm => h₁ (List.mem_cons_of_mem a hm)
    rw [List.cons_append, splitChar, if_neg ha, ih h₁']

theorem splitSemiSpace_of_not_mem (l : List Char) (h : ';' ∉ l) :
    splitSemiSpace l = [l] := by
  induction l with
  | nil => rfl
  | cons a as ih =>
    cases as with
    | nil => rfl
    | cons b bs =>
      have ha : ¬ (a = ';' ∧ b = ' ') := by
        rintro ⟨h1, _⟩
        exact h (h1 ▸ List.mem_cons_self a (b :: bs))
      have h' : (';' : Char) ∉ b :: bs := fun hm => h (List.mem_cons_of_mem a hm)
      rw [splitSemiSpace, if_neg ha, ih h']

theorem asString_data (s : String) : List.asString s.data = s := by
  cases s
  rfl

/-- Inversion of the pipeline: a successful run means all three steps
succeeded on the way to the returned payload. -/
theorem authPipeline_ok_inv (parse : String → Option ParsedToken) (db : Db)
    (secret : String) (now : Nat) (req : HttpRequest)
    (p : List (String × String))
    (h : authPipeline parse db secret now req = .ok p) :
    ∃ t, extract_token req = .ok t ∧
      decode_token parse secret t now = .ok p ∧
      verify_token_in_db db (dictGet p "token_id") = .ok () := by
  rw [authPipeline] at h
  split at h
  next e hext => exact absurd h (by simp)
  next t hext =>
    split at h
    next e hdec => exact absurd h (by simp)
    next payload hdec =>
      split at h
      next e hver => exact absurd h (by simp)
      next u hver =>
        have hpq : payload = p := by simpa using h
        subst hpq
        exact ⟨t, hext, hdec, by simpa using hver⟩

/-- Claim C3: a token identifier with no row in the `jwt_token` table is
rejected by `_verify_token_in_db` as blacklisted (`ValueError("JWT token is
blacklisted")`): absence of a database record is default-deny, never treated
as valid. -/
theorem C3_absent_row_is_denied (db : Db) (tid : String)
    (hav : db.available = true) (hne : tid ≠ "")
    (habs : db.rows.contains tid = false) :
    verify_token_in_db db (some tid) =
      .error (.ValueErr "JWT token is blacklisted") := by
  have habs' : tid ∉ db.rows := by simpa using habs
  simp [verify_token_in_db, hne, hav, habs']

/-- Witness for C3 at the store holding only `"other"` and the unknown
identifier `"tok-123"`. -/
theorem C3_absent_row_is_denied_witness :
    verify_token_in_db ⟨true, ["other"]⟩ (some "tok-123") =
      .error (.ValueErr "JWT token is blacklisted") :=
  C3_absent_row_is_denied ⟨true, ["other"]⟩ "tok-123" (by decide) (by decide)
    (by decide)

/-- Claim C4: `_handle_error` maps every client-fault exception (expired
signature, invalid token, `ValueError` — missing token, missing token
identifier, blacklisted token) to status 401, every unclassified exception
(`IndexError`, store failure) to status 500, and every response body is the
JSON object `{"success": false, "error": "<message>"}` with the JSON
mimetype. -/
theorem C4_status_code_mapping (e : AuthError) :
    ((e = .ExpiredSignature ∨ e = .InvalidToken ∨ ∃ m, e = .ValueErr m) →
      (handle_error e).status_code = 401) ∧
    ((e = .IndexErr ∨ e = .DbUnavailable) →
      (handle_error e).status_code = 500) ∧
    ∃ m, (handle_error e).body =
        "\x7b\"success\": false, \"error\": \"" ++ m ++ "\"\x7d" ∧
      (handle_error e).mimetype = "application/json" := by
  cases e with
  | ExpiredSignature =>
    exact ⟨fun _ => rfl, fun h => by rcases h with h | h <;> exact absurd h (by decide),
      "Token is expired. Please log in again.", by decide, rfl⟩
  | InvalidToken =>
    exact ⟨fun _ => rfl, fun h => by rcases h with h | h <;> exact absurd h (by decide),
      "Invalid token.", by decide, rfl⟩
  | ValueErr m => exact ⟨fun _ => rfl,
      fun h => by rcases h with h | h <;> exact absurd h (by simp), m, rfl, rfl⟩
  | IndexErr =>
    exact ⟨fun h => by
        rcases h with h | h | ⟨m, h⟩ <;> first | exact absurd h (by decide) | simp at h,
      fun _ => rfl, "Internal server error during authentication.", by decide, rfl⟩
  | DbUnavailable =>
    exact ⟨fun h => by
        rcases h with h | h | ⟨m, h⟩ <;> first | exact absurd h (by decide) | simp at h,
      fun _ => rfl, "Internal server error during authentication.", by decide, rfl⟩

/-- Witness for C4: the expired-token response has status 401 and a store
failure has status 500. -/
theorem C4_status_code_mapping_witness :
    (handle_error .ExpiredSignature).status_code = 401 ∧
    (handle_error .DbUnavailable).status_code = 500 :=
  ⟨(C4_status_code_mapping .ExpiredSignature).1 (Or.inl rfl),
    (C4_status_code_mapping .DbUnavailable).2.1 (Or.inr rfl)⟩

/-- Claim C8: when the decoded payload's token identifier is absent or empty,
`_verify_token_in_db` fails with the distinct `ValueError("Token ID is
missing from payload")` for every possible store state — in particular it
never touches the database (the result is the same even when the store is
unreachable) and is never treated as not revoked — and the resulting
response has status 401. -/
theorem C8_missing_token_id_is_distinct_error (tid : Option String)
    (h : tid = none ∨ tid = some "") :
    (∀ db : Db, verify_token_in_db db tid =
        .error (.ValueErr "Token ID is missing from payload")) ∧
    (handle_error (.ValueErr "Token ID is missing from payload")).status_code
      = 401 := by
  refine ⟨fun db => ?_, rfl⟩
  rcases h with h | h <;> subst h <;> rfl

/-- Witness for C8: the empty identifier is rejected with the
missing-identifier error even on an unreachable store. -/
theorem C8_missing_token_id_is_distinct_error_witness :
    verify_token_in_db ⟨false, []⟩ (some "") =
      .error (.ValueErr "Token ID is missing from payload") :=
  (C8_missing_token_id_is_distinct_error (some "") (Or.inr rfl)).1 ⟨false, []⟩

/-- Claim C9: `_decode_token` passes `algorithms=['HS256']`, so a parsed
token whose header names any other algorithm is rejected as invalid rather
than having its claims returned. -/
theorem C9_only_hs256_accepted (parse : String → Option ParsedToken)
    (secret s : String) (now : Nat) (pt : ParsedToken)
    (hp : parse s = some pt) (halg : pt.alg ≠ "HS256") :
    decode_token parse secret s now = .error .InvalidToken := by
  rw [decode_token, jwt_decode, hp]
  simp [halg]

/-- Witness for C9 at the token environment `parse1`, whose token `"t"`
names the algorithm `"none"`. -/
theorem C9_only_hs256_accepted_witness :
    decode_token parse1 "k" "t" 0 = .error .InvalidToken :=
  C9_only_hs256_accepted parse1 "k" "t" 0 ⟨"none", "k", 10, []⟩ (by decide)
    (by decide)

/-- Claim C10: when the cookie dict maps `auth_token` to the empty string
(for example the Cookie header `auth_token=`), extraction treats the cookie
as absent and falls back to the Authorization-header branch instead of
returning the empty string. -/
theorem C10_empty_cookie_falls_back (h : String) (a : Option String)
    (hc : dictGet (cookiesOf h) "auth_token" = some "") :
    extract_token ⟨some h, a⟩ = extractFromAuthHeader a := by
  rw [extract_token]
  simp only [Option.getD_some]
  rw [hc]
  rfl

/-- Witness for C10: the Cookie header `auth_token=` with the Authorization
header `Bearer xyz` yields the header token `xyz`. -/
theorem C10_empty_cookie_falls_back_witness :
    extract_token ⟨some "auth_token=", some "Bearer xyz"⟩ =
        extractFromAuthHeader (some "Bearer xyz") ∧
    extractFromAuthHeader (some "Bearer xyz") = .ok "xyz" :=
  ⟨C10_empty_cookie_falls_back "auth_token=" (some "Bearer xyz") (by decide),
    by decide⟩

/-- Claim C1: for every request from which a token is extracted that is
well-formed, names HS256, carries a signature valid under the configured
secret, is unexpired, and whose claims hold a non-empty token identifier
with a row in the revocation store, `decorated_function` invokes the wrapped
handler and the payload it attaches to the request equals the claims
embedded in the token. -/
theorem C1_valid_token_invokes_handler
    (parse : String → Option ParsedToken) (db : Db) (secret : String)
    (now : Nat) (req : HttpRequest) (s : String) (pt : ParsedToken)
    (tid : String)
    (hex : extract_token req = .ok s)
    (hp : parse s = some pt)
    (halg : pt.alg = "HS256")
    (hkey : pt.sigKey = secret)
    (hexp : now ≤ pt.exp)
    (htid : dictGet pt.claims "token_id" = some tid)
    (hne : tid ≠ "")
    (hav : db.available = true)
    (hrow : db.rows.contains tid = true) :
    decorated_function parse db secret now req = .handlerInvoked pt.claims := by
  have hrow' : tid ∈ db.rows := by simpa using hrow
  simp only [decorated_function, authPipeline, hex, decode_token, jwt_decode,
    hp]
  simp [halg, hkey, Nat.not_lt.mpr hexp, verify_token_in_db, htid, hne, hav,
    hrow']

/-- Witness for C1 at the token environment `parse0` and a store holding the
row `id0`: the handler runs with the token's claims attached. -/
theorem C1_valid_token_invokes_handler_witness :
    decorated_function parse0 ⟨true, ["id0"]⟩ "k" 50
        ⟨some "auth_token=tok", none⟩ =
      .handlerInvoked [("token_id", "id0")] :=
  C1_valid_token_invokes_handler parse0 ⟨true, ["id0"]⟩ "k" 50
    ⟨some "auth_token=tok", none⟩ "tok" ⟨"HS256", "k", 100, [("token_id", "id0")]⟩
    "id0" (by decide) (by decide) rfl rfl (by decide) (by decide) (by decide)
    (by decide) (by decide)

/-- Claim C2: the wrapped handler runs only when extraction, decoding and
the database check all succeed, and whenever any of the three steps raises
an error the handler is never invoked and the error `HttpResponse` from
`_handle_error` is returned instead. -/
theorem C2_handler_runs_iff_all_checks_pass
    (parse : String → Option ParsedToken) (db : Db) (secret : String)
    (now : Nat) (req : HttpRequest) :
    (∀ p, decorated_function parse db secret now req = .handlerInvoked p →
      ∃ t, extract_token req = .ok t ∧
        decode_token parse secret t now = .ok p ∧
        verify_token_in_db db (dictGet p "token_id") = .ok ()) ∧
    (∀ e, authPipeline parse db secret now req = .error e →
      decorated_function parse db secret now req =
        .errResponse (handle_error e)) := by
  constructor
  · intro p hp
    rw [decorated_function] at hp
    cases hpipe : authPipeline parse db secret now req with
    | error e => rw [hpipe] at hp; exact absurd hp (by simp)
    | ok q =>
      rw [hpipe] at hp
      have hq : q = p := by simpa using hp
      subst hq
      exact authPipeline_ok_inv parse db secret now req q hpipe
  · intro e he
    rw [decorated_function, he]

/-- Witness for C2: on a request with no cookie and no Authorization header
the pipeline fails with the missing-token error and the decorator returns
its 401 response without invoking the handler. -/
theorem C2_handler_runs_iff_all_checks_pass_witness :
    decorated_function parse0 ⟨true, ["id0"]⟩ "k" 50 ⟨none, none⟩ =
      .errResponse (handle_error (.ValueErr "Token is missing")) :=
  (C2_handler_runs_iff_all_checks_pass parse0 ⟨true, ["id0"]⟩ "k" 50
    ⟨none, none⟩).2 (.ValueErr "Token is missing") (by decide)

/-- Claim C5 (evaluation at the failing input): on a request with no cookie
and the Authorization header `BearerXYZ` (no space-separated scheme), the
source's `auth_header.split(" ")[1]` raises `IndexError`, which the
`isinstance` chain does not classify, so the decorator returns the generic
500 response — not the `MissingToken` 401 client fault the claim
requires. -/
theorem C5_bearer_without_space_gives_500 :
    extract_token ⟨none, some "BearerXYZ"⟩ = .error .IndexErr ∧
    decorated_function parse0 ⟨true, ["id0"]⟩ "k" 50
        ⟨none, some "BearerXYZ"⟩ =
      .errResponse (handle_error .IndexErr) ∧
    (handle_error .IndexErr).status_code = 500 := by
  decide

/-- Claim C6 (evaluation at the failing input): the cookie dict is built
with `cookie.split('=')[1]`, which splits at every `=`; for the Cookie
header `auth_token=abc=def` extraction returns the truncated value `abc`,
not the full cookie value `abc=def` the claim requires. -/
theorem C6_cookie_value_truncated_at_internal_eq :
    extract_token ⟨some ("auth_token=" ++ "abc=def"), none⟩ = .ok "abc" ∧
    ("abc" : String) ≠ "abc=def" := by
  decide

/-- Claim C7 (counterexample): with the cookie `auth_token==y` — cookie
value `=y`, which is non-empty — and the header `Bearer B`, the split at
every `=` makes the cookie dict map `auth_token` to the empty string, so
extraction falls through to the Authorization header and returns `B`, not
the cookie value `=y`: the claim as stated is false. -/
theorem C7_counterexample :
    extract_token ⟨some ("auth_token=" ++ "=y"), some ("Bearer " ++ "B")⟩ =
        .ok "B" ∧
    ("B" : String) ≠ "=y" := by
  decide

/-- Claim C7 (amended): for every request carrying both a cookie
`auth_token=A` — with `A` non-empty and containing neither `=` nor `;`, so
that the pair survives the source's cookie parsing intact — and an
Authorization header `Bearer B`, extraction returns the cookie value `A`:
the cookie takes precedence and the header is not consulted. -/
theorem C7_cookie_precedence_amended (A B : String) (hne : A ≠ "")
    (heq : ('=' : Char) ∉ A.data) (hsemi : (';' : Char) ∉ A.data) :
    extract_token ⟨some ("auth_token=" ++ A), some ("Bearer " ++ B)⟩ =
      .ok A := by
  have hnosemi : (';' : Char) ∉ ("auth_token=" ++ A).data := by
    rw [String.data_append]
    intro hm
    rcases List.mem_append.mp hm with h1 | h1
    · exact absurd h1 (by decide)
    · exact hsemi h1
  have hsplit1 : splitOnSemiSpace ("auth_token=" ++ A) = ["auth_token=" ++ A] := by
    rw [splitOnSemiSpace, splitSemiSpace_of_not_mem _ hnosemi, List.map_cons,
      List.map_nil, asString_data]
  have hdata : ("auth_token=" ++ A).data = "auth_token".data ++ '=' :: A.data := by
    rw [String.data_append]
    have h10 : ("auth_token=").data = "auth_token".data ++ ['='] := by decide
    rw [h10, List.append_assoc]
    rfl
  have hsplit2 : splitOnEq ("auth_token=" ++ A) = ["auth_token", A] := by
    rw [splitOnEq, hdata, splitChar_append_sep '=' _ _ (by decide) heq,
      List.map_cons, List.map_cons, List.map_nil, asString_data "auth_token",
      asString_data A]
  have hcont : (("auth_token=" ++ A).data).contains '=' = true := by
    rw [String.data_append]
    exact List.elem_eq_true_of_mem (List.mem_append.mpr (Or.inl (by decide)))
  have hcookies : cookiesOf ("auth_token=" ++ A) = [("auth_token", A)] := by
    rw [cookiesOf, hsplit1]
    simp [hcont, hsplit2]
  rw [extract_token]
  simp only [Option.getD_some]
  rw [hcookies]
  simp [dictGet, List.lookup, hne]

/-- Witness for the amended C7 at `A = "A1"`, `B = "B"`. -/
theorem C7_cookie_precedence_amended_witness :
    extract_token ⟨some ("auth_token=" ++ "A1"), some ("Bearer " ++ "B")⟩ =
      .ok "A1" :=
  C7_cookie_precedence_amended "A1" "B" (by decide) (by decide) (by decide)

end JwtAuthenticator
